import Mathlib

/-!
Verification development for the DFD threat-model generator.

Shallow embedding of the core of the repository:
* `src/threatLibrary.js`  — the static pattern catalog and its lookup surface,
* `src/dfdValidator.js`   — structural validation plus the role-flag normalization
  it performs on elements,
* `src/threatGenerator.js` — pattern matching, severity escalation, finding
  assembly, sorting, and the STRIDE breakdown of the report synthesizer.

Modelling conventions:
* JS strings that may be `undefined` or `''` (both falsy) are encoded as `String`
  with `""` standing for a missing value, or as `Option String` where the
  distinction between absent and empty matters to the control flow.
* JS booleans that may be `undefined` are encoded as `Bool` with `false` for
  absent (only truthiness is ever tested in the source).
* The severity strings flowing through the generator form the closed set
  {"Critical", "High", "Medium", "Low"} (every producing expression in the
  source is a literal from this set), embedded as the enum `Severity`.
* `Array.prototype.sort` with the severity comparator is a stable comparison
  sort (ECMAScript 2019 requires stability); it is embedded as
  `List.insertionSort`, which is stable for the same total preorder.
* Fresh UUIDs (`threat.id`, `threatModel.id`) and timestamps (`createdAt`) are
  nondeterministic environment effects and are not modelled; no claim refers to
  them.  The `options.customRules` overlay only appends mitigation strings to
  findings matched by those UUIDs and is likewise outside every claim; the
  embedding of `generateThreatModel` corresponds to the default `options = {}`.
-/

/-- Severity levels; the only severity strings occurring in the source. -/
inductive Severity where
  | critical
  | high
  | medium
  | low
deriving DecidableEq, BEq, Repr

/-- Severity rank, as in the source's `severityOrder` map
`{ Critical: 0, High: 1, Medium: 2, Low: 3 }`. -/
def severityOrder : Severity → Nat
  | .critical => 0
  | .high => 1
  | .medium => 2
  | .low => 3

/-- DFD element (`dfd.elements[i]`).  `id`, `name`, `type` use `""` for a
missing value (JS falsy string). -/
structure Element where
  id : String
  name : String
  type : String
  description : Option String := none
  isExternalEntity : Bool := false
  isDatastore : Bool := false
  isProcess : Bool := false
  trustLevel : Option String := none
deriving DecidableEq, Repr

/-- DFD dataflow (`dfd.dataflows[i]`).  `fromE`/`toE` are the `from`/`to`
element ids (`from` and `to` are Lean keywords). -/
structure Dataflow where
  id : String
  name : String
  fromE : String
  toE : String
  protocol : Option String := none
  hasSensitiveData : Bool := false
  isCrossNetwork : Bool := false
  isEncrypted : Bool := false
  authentication : Option String := none
  type : Option String := none
deriving DecidableEq, Repr

/-- Trust boundary (`dfd.trustBoundaries[i]`); only its presence is consumed. -/
structure TrustBoundary where
  id : String
  name : String
  elements : List String
deriving DecidableEq, Repr

/-- The DFD object.  `trustBoundaries = []` also encodes an absent array (the
source only tests `!Array.isArray(..) || length === 0`). -/
structure DFD where
  id : String
  name : String
  description : Option String := none
  elements : List Element
  dataflows : List Dataflow
  trustBoundaries : List TrustBoundary := []
deriving DecidableEq, Repr

/-- A threat pattern of the static library (`threatLibrary.library.patterns`).
`Option` fields model keys that some patterns omit (JS `undefined`). -/
structure ThreatPattern where
  id : String
  title : String
  description : String
  category : String
  stride : List String
  severity : Option Severity := none
  impact : Option String := none
  targets : Option (List String) := none
  appliesToDataflow : Bool := false
  protocols : Option (List String) := none
  mitigations : Option (List String) := none
  references : Option (List String) := none
  owaspCategory : Option String := none
deriving DecidableEq, Repr

/-- A generated threat finding.  The element/dataflow stamp fields are `none`
until `generateThreatModel` assigns them (the source adds these keys by
mutation inside its loops). -/
structure Threat where
  title : String
  description : String
  category : String
  stride : List String
  severity : Severity
  likelihood : String
  impact : String
  mitigations : List String
  references : List String
  owaspCategory : String
  elementId : Option String := none
  elementName : Option String := none
  elementType : Option String := none
  dataflowId : Option String := none
  dataflowName : Option String := none
  dataflowType : Option String := none
deriving DecidableEq, Repr

/-- Per-severity tallies (`riskSummary`). -/
structure RiskSummary where
  critical : Nat
  high : Nat
  medium : Nat
  low : Nat
deriving DecidableEq, Repr

/-- The generated threat model (UUID `id` and `createdAt` omitted, see header). -/
structure ThreatModel where
  dfdId : String
  dfdName : String
  threats : List Threat
  totalThreats : Nat
  riskSummary : RiskSummary
  owasp_mapped : Bool
deriving DecidableEq, Repr

/-- Result shape of `dfdValidator.validate`.  The `Option` fields are `none`
exactly when the corresponding key is absent from the returned object (the
early return for a missing DFD only carries `valid` and `errors`). -/
structure ValidationResult where
  valid : Bool
  errors : List String
  warnings : Option (List String)
  elementCount : Option Nat
  dataflowCount : Option Nat
  trustBoundaryCount : Option Nat
deriving DecidableEq, Repr

/-- Aggregate metadata of the pattern library (`getLibraryMetadata`). -/
structure LibraryMetadata where
  version : String
  source : String
  categories : List String
  totalPatterns : Nat
  strideCoverage : List String
  supportedElementTypes : List String
deriving DecidableEq, Repr

/-! ### Pattern library data (`src/threatLibrary.js`) -/

/-- Pattern ACT01, "Malicious External Actor". -/
def patACT01 : ThreatPattern :=
  { id := "ACT01"
    title := "Malicious External Actor"
    description := "External entities may be compromised or act with malicious intent"
    category := "Actor Threat"
    stride := ["Spoofing", "Repudiation"]
    severity := some .high
    impact := some "Critical"
    targets := some ["external_entity", "user", "actor"]
    mitigations := some
      [ "Implement multi-factor authentication"
      , "Use digital signatures and certificates"
      , "Implement continuous monitoring and anomaly detection"
      , "Maintain detailed audit logs"
      , "Implement rate limiting and CAPTCHA" ]
    references := some ["A07:2021 – Identification and Authentication Failures"]
    owaspCategory := some "A07:2021 – Identification and Authentication Failures" }

/-- Pattern ACT02, "Account Compromise". -/
def patACT02 : ThreatPattern :=
  { id := "ACT02"
    title := "Account Compromise"
    description := "Actor credentials may be stolen or compromised"
    category := "Authentication"
    stride := ["Spoofing"]
    severity := some .high
    impact := some "High"
    targets := some ["external_entity", "actor"]
    mitigations := some
      [ "Enforce strong password policies"
      , "Implement MFA/2FA"
      , "Monitor for suspicious login patterns"
      , "Session timeout policies"
      , "Password reset procedures" ]
    owaspCategory := some "A07:2021 – Identification and Authentication Failures" }

/-- Pattern PROC01, "Input Validation Bypass". -/
def patPROC01 : ThreatPattern :=
  { id := "PROC01"
    title := "Input Validation Bypass"
    description := "Process may not properly validate input, leading to injection attacks"
    category := "Input Validation"
    stride := ["Tampering"]
    severity := some .critical
    impact := some "Critical"
    targets := some ["process"]
    mitigations := some
      [ "Implement strict input validation"
      , "Use parameterized queries"
      , "Whitelist acceptable input patterns"
      , "Use security frameworks (ESAPI, Spring Security)"
      , "Regular security testing (SAST)" ]
    owaspCategory := some "A03:2021 – Injection" }

/-- Pattern PROC02, "Privilege Escalation". -/
def patPROC02 : ThreatPattern :=
  { id := "PROC02"
    title := "Privilege Escalation"
    description := "Process running with excessive privileges may be exploited"
    category := "Authorization"
    stride := ["Elevation of Privilege"]
    severity := some .high
    impact := some "Critical"
    targets := some ["process"]
    mitigations := some
      [ "Apply principle of least privilege"
      , "Use role-based access control (RBAC)"
      , "Regular privilege audits"
      , "Separate user and admin interfaces"
      , "Monitor privilege usage" ]
    owaspCategory := some "A01:2021 – Broken Access Control" }

/-- Pattern PROC03, "Broken Authentication". -/
def patPROC03 : ThreatPattern :=
  { id := "PROC03"
    title := "Broken Authentication"
    description := "Process authentication mechanisms may be bypassed or compromised"
    category := "Authentication"
    stride := ["Spoofing"]
    severity := some .critical
    impact := some "Critical"
    targets := some ["process"]
    mitigations := some
      [ "Implement secure authentication protocols (OAuth 2.0, OIDC)"
      , "Use hardware security modules for key storage"
      , "Implement account lockout mechanisms"
      , "Use secure session management"
      , "Regular authentication testing" ]
    owaspCategory := some "A07:2021 – Identification and Authentication Failures" }

/-- Pattern PROC04, "Business Logic Bypass". -/
def patPROC04 : ThreatPattern :=
  { id := "PROC04"
    title := "Business Logic Bypass"
    description := "Application business logic may be bypassed or exploited"
    category := "Business Logic"
    stride := ["Tampering"]
    severity := some .high
    impact := some "High"
    targets := some ["process"]
    mitigations := some
      [ "Comprehensive business logic testing"
      , "State machine validation"
      , "Rate limiting on critical operations"
      , "Transaction integrity checks"
      , "Fraud detection systems" ]
    owaspCategory := some "A04:2021 – Insecure Design" }

/-- Pattern DS01, "Unauthorized Data Access". -/
def patDS01 : ThreatPattern :=
  { id := "DS01"
    title := "Unauthorized Data Access"
    description := "Sensitive data in datastore may be accessed without proper authorization"
    category := "Information Disclosure"
    stride := ["Information Disclosure"]
    severity := some .critical
    impact := some "Critical"
    targets := some ["datastore", "database"]
    mitigations := some
      [ "Implement database encryption (TDE, field-level encryption)"
      , "Use access control lists and row-level security"
      , "Implement database auditing and monitoring"
      , "Use data masking for sensitive fields"
      , "Regular backup and recovery testing"
      , "Implement principle of least privilege for DB access" ]
    owaspCategory := some "A01:2021 – Broken Access Control" }

/-- Pattern DS02, "Data Tampering". -/
def patDS02 : ThreatPattern :=
  { id := "DS02"
    title := "Data Tampering"
    description := "Data in datastore may be modified without detection"
    category := "Data Integrity"
    stride := ["Tampering"]
    severity := some .high
    impact := some "High"
    targets := some ["datastore", "database"]
    mitigations := some
      [ "Implement database integrity checks (hash verification)"
      , "Use digital signatures for critical data"
      , "Enable transaction logging"
      , "Implement audit trails"
      , "Regular integrity audits"
      , "Backup and version control" ]
    owaspCategory := some "A06:2021 – Vulnerable and Outdated Components" }

/-- Pattern DS03, "Data Loss". -/
def patDS03 : ThreatPattern :=
  { id := "DS03"
    title := "Data Loss"
    description := "Data in datastore may be lost due to failure or attack"
    category := "Availability"
    stride := ["Denial of Service"]
    severity := some .high
    impact := some "Critical"
    targets := some ["datastore", "database"]
    mitigations := some
      [ "Implement automated backups"
      , "Use database replication and clustering"
      , "Disaster recovery planning"
      , "Regular backup testing and restore drills"
      , "Implement redundancy"
      , "Geographic data distribution" ]
    owaspCategory := some "A06:2021 – Vulnerable and Outdated Components" }

/-- Pattern DS04, "SQL Injection via Database". -/
def patDS04 : ThreatPattern :=
  { id := "DS04"
    title := "SQL Injection via Database"
    description := "Database may be vulnerable to SQL injection attacks"
    category := "Injection"
    stride := ["Tampering"]
    severity := some .critical
    impact := some "Critical"
    targets := some ["datastore", "database"]
    mitigations := some
      [ "Use parameterized queries and prepared statements"
      , "Input validation and sanitization"
      , "Principle of least privilege for database accounts"
      , "Web Application Firewall (WAF)"
      , "Regular security testing (DAST)"
      , "Database activity monitoring" ]
    owaspCategory := some "A03:2021 – Injection" }

/-- Pattern DF01, "Man-in-the-Middle Attack" (protocol allow-list is
case-sensitive upper case in the source). -/
def patDF01 : ThreatPattern :=
  { id := "DF01"
    title := "Man-in-the-Middle Attack"
    description := "Unencrypted dataflow is vulnerable to interception and modification"
    category := "Network Attack"
    stride := ["Tampering", "Information Disclosure", "Spoofing"]
    severity := some .critical
    impact := some "Critical"
    appliesToDataflow := true
    protocols := some ["HTTP", "FTP", "SMTP", "TELNET"]
    mitigations := some
      [ "Use TLS 1.2+ for all communications"
      , "Implement certificate pinning"
      , "HSTS headers"
      , "Perfect forward secrecy"
      , "Regular certificate updates"
      , "Monitor for suspicious certificates" ]
    owaspCategory := some "A02:2021 – Cryptographic Failures" }

/-- Pattern DF02, "Eavesdropping". -/
def patDF02 : ThreatPattern :=
  { id := "DF02"
    title := "Eavesdropping"
    description := "Sensitive data in dataflow may be eavesdropped"
    category := "Information Disclosure"
    stride := ["Information Disclosure"]
    severity := some .high
    impact := some "High"
    appliesToDataflow := true
    mitigations := some
      [ "End-to-end encryption"
      , "Use VPN for sensitive communications"
      , "Message-level encryption"
      , "Perfect forward secrecy"
      , "Regular encryption audits" ]
    owaspCategory := some "A02:2021 – Cryptographic Failures" }

/-- Pattern DF03, "Replay Attack". -/
def patDF03 : ThreatPattern :=
  { id := "DF03"
    title := "Replay Attack"
    description := "Legitimate dataflow messages may be captured and replayed"
    category := "Network Attack"
    stride := ["Spoofing", "Tampering"]
    severity := some .high
    impact := some "High"
    appliesToDataflow := true
    mitigations := some
      [ "Implement message timestamps"
      , "Use nonce/challenge-response"
      , "Session tokens with expiration"
      , "Message sequence numbers"
      , "MAC codes on messages" ]
    owaspCategory := some "A02:2021 – Cryptographic Failures" }

/-- Pattern DF04, "Denial of Service". -/
def patDF04 : ThreatPattern :=
  { id := "DF04"
    title := "Denial of Service"
    description := "Dataflow may be targeted by DoS attacks"
    category := "Availability"
    stride := ["Denial of Service"]
    severity := some .medium
    impact := some "High"
    appliesToDataflow := true
    mitigations := some
      [ "Rate limiting"
      , "Load balancing"
      , "DDoS protection services"
      , "Input validation"
      , "Connection timeouts"
      , "Resource quotas" ]
    owaspCategory := some "A05:2021 – Broken Access Control" }

/-- Pattern EXT01, "Compromised Third-Party". -/
def patEXT01 : ThreatPattern :=
  { id := "EXT01"
    title := "Compromised Third-Party"
    description := "External entity may be compromised or unreliable"
    category := "Third-Party Risk"
    stride := ["Spoofing", "Tampering"]
    severity := some .high
    impact := some "High"
    targets := some ["external_entity"]
    mitigations := some
      [ "Vendor security assessments"
      , "Contract security requirements"
      , "API authentication and rate limiting"
      , "Monitor third-party communications"
      , "Incident response plans"
      , "Business continuity planning" ]
    owaspCategory := some "A06:2021 – Vulnerable and Outdated Components" }

/-- The pattern catalog `threatLibrary.library.patterns`, as an association
list keyed by subject-type bucket, in source (insertion) order. -/
def libraryPatterns : List (String × List ThreatPattern) :=
  [ ("actor", [patACT01, patACT02])
  , ("process", [patPROC01, patPROC02, patPROC03, patPROC04])
  , ("datastore", [patDS01, patDS02, patDS03, patDS04])
  , ("dataflow", [patDF01, patDF02, patDF03, patDF04])
  , ("external_entity", [patEXT01]) ]

/-- The alias table of `getThreatPatterns`. -/
def typeMap : List (String × String) :=
  [ ("process", "process")
  , ("datastore", "datastore")
  , ("database", "datastore")
  , ("actor", "actor")
  , ("external_entity", "external_entity")
  , ("user", "actor")
  , ("dataflow", "dataflow") ]

/-- `threatLibrary.getThreatPatterns`: alias-normalize the type
(`typeMap[t] || t`) and return its bucket (`patterns[mapped] || []`). -/
def getThreatPatterns (elementType : String) : List ThreatPattern :=
  let mappedType := (typeMap.lookup elementType).getD elementType
  (libraryPatterns.lookup mappedType).getD []

/-- JS `Set` insertion (only iteration order and membership are consumed). -/
def insertUniq (l : List String) (s : String) : List String :=
  if l.contains s then l else l ++ [s]

/-- Accumulator of `getLibraryMetadata` while walking the catalog. -/
structure MetaAcc where
  types : List String
  cats : List String
  strideCov : List String
  total : Nat
deriving Repr

/-- `threatLibrary.getLibraryMetadata`: walk every bucket, counting patterns
and collecting categories, STRIDE coverage and bucket keys into sets. -/
def getLibraryMetadata : LibraryMetadata :=
  let acc := libraryPatterns.foldl
    (fun acc entry =>
      let acc := { acc with types := insertUniq acc.types entry.fst }
      entry.snd.foldl
        (fun a p =>
          { a with
            total := a.total + 1
            cats := insertUniq a.cats p.category
            strideCov := p.stride.foldl insertUniq a.strideCov })
        acc)
    (MetaAcc.mk [] [] [] 0)
  { version := "1.0.0"
    source := "OWASP Threat Model Library"
    categories := acc.cats
    totalPatterns := acc.total
    strideCoverage := acc.strideCov
    supportedElementTypes := acc.types }

/-! ### DFD validator (`src/dfdValidator.js`) -/

/-- JS string truthiness for an optional string field: `undefined` and `""`
are falsy. -/
def strFalsy : Option String → Bool
  | none => true
  | some s => s.isEmpty

/-- The recognized element types (`validTypes` in the validator). -/
def validTypes : List String :=
  ["actor", "process", "datastore", "external_entity", "user", "database"]

/-- The known-insecure protocols checked (case-insensitively) by the
validator's warning pass. -/
def insecureProtocols : List String := ["http", "ftp", "telnet", "smtp"]

/-- JS `toLowerCase()` on the (ASCII) protocol strings, modelled as a
character-wise lowering. -/
def lowerString (s : String) : String := String.mk (s.data.map Char.toLower)

/-- Per-element pass of `validate`: required fields, recognized type,
duplicate ids (tracked in `seen`), and the datastore-description warning, in
source order.  `i` is the `forEach` index used in the messages.  Returns
`(errors, warnings)`. -/
def validateElementsFrom (seen : List String) (i : Nat) :
    List Element → List String × List String
  | [] => ([], [])
  | e :: rest =>
    let errs :=
      (if e.id.isEmpty then ["Element " ++ toString i ++ " missing required field: id"] else [])
      ++ (if e.name.isEmpty then ["Element " ++ toString i ++ " missing required field: name"] else [])
      ++ (if e.type.isEmpty then
            ["Element " ++ toString i ++ " missing required field: type"]
          else if validTypes.contains e.type then []
          else ["Element " ++ toString i ++ " has invalid type: " ++ e.type])
      ++ (if e.id.isEmpty = false ∧ seen.contains e.id then
            ["Duplicate element ID: " ++ e.id]
          else [])
    let warns :=
      if (e.type = "datastore" ∨ e.type = "database") ∧ strFalsy e.description then
        ["Datastore \x27" ++ e.name ++ "\x27 should have description"]
      else []
    let seen := if e.id.isEmpty then seen else seen ++ [e.id]
    let (es, ws) := validateElementsFrom seen (i + 1) rest
    (errs ++ es, warns ++ ws)

/-- Per-dataflow pass of `validate`: required fields, duplicate ids, endpoint
resolution against `elementIds`, and the three security warnings, in source
order. -/
def validateDataflowsFrom (elementIds : List String) (seen : List String) (i : Nat) :
    List Dataflow → List String × List String
  | [] => ([], [])
  | df :: rest =>
    let errs :=
      (if df.id.isEmpty then ["Dataflow " ++ toString i ++ " missing required field: id"] else [])
      ++ (if df.fromE.isEmpty then ["Dataflow " ++ toString i ++ " missing required field: from"] else [])
      ++ (if df.toE.isEmpty then ["Dataflow " ++ toString i ++ " missing required field: to"] else [])
      ++ (if df.name.isEmpty then ["Dataflow " ++ toString i ++ " missing required field: name"] else [])
      ++ (if df.id.isEmpty = false ∧ seen.contains df.id then
            ["Duplicate dataflow ID: " ++ df.id]
          else [])
      ++ (if df.fromE.isEmpty = false ∧ elementIds.contains df.fromE = false then
            ["Dataflow \x27" ++ df.name ++ "\x27: source element \x27" ++ df.fromE ++ "\x27 not found"]
          else [])
      ++ (if df.toE.isEmpty = false ∧ elementIds.contains df.toE = false then
            ["Dataflow \x27" ++ df.name ++ "\x27: destination element \x27" ++ df.toE ++ "\x27 not found"]
          else [])
    let warns :=
      (if df.hasSensitiveData ∧ df.isEncrypted = false then
         ["Dataflow \x27" ++ df.name ++ "\x27 carries sensitive data but is not encrypted"]
       else [])
      ++ (match df.protocol with
          | some p =>
            if p.isEmpty = false ∧ insecureProtocols.contains (lowerString p) then
              ["Dataflow \x27" ++ df.name ++ "\x27 uses unencrypted protocol: " ++ p]
            else []
          | none => [])
      ++ (if strFalsy df.authentication ∧ df.isCrossNetwork then
            ["Dataflow \x27" ++ df.name ++ "\x27 crosses network boundary but lacks authentication"]
          else [])
    let seen := if df.id.isEmpty then seen else seen ++ [df.id]
    let (es, ws) := validateDataflowsFrom elementIds seen (i + 1) rest
    (errs ++ es, warns ++ ws)

/-- Orphan check of `validate`: warn for every element whose id occurs in no
dataflow endpoint. -/
def orphanWarnings (dfd : DFD) : List String :=
  let connected := dfd.dataflows.foldl (fun acc df => acc ++ [df.fromE, df.toE]) []
  (dfd.elements.filter (fun e => connected.contains e.id = false)).map
    (fun e => "Element \x27" ++ e.name ++ "\x27 is not connected to any dataflow")

/-- `dfdValidator.validate`.  The `none` input models a missing (`null` /
`undefined`) DFD: the source hits its early `return` and the result object
carries only `valid` and `errors` (the other keys are absent, encoded `none`).
The function is total: the source never throws.

The source additionally mutates the input elements, setting the derived role
flags; this side effect is modelled separately by `normalizeElement` /
`validatedDFD` below (explicit state passing). -/
def validate : Option DFD → ValidationResult
  | none =>
    { valid := false
      errors := ["DFD object is required"]
      warnings := none
      elementCount := none
      dataflowCount := none
      trustBoundaryCount := none }
  | some dfd =>
    let headerErrs :=
      (if dfd.id.isEmpty then ["DFD ID is required"] else [])
      ++ (if dfd.name.isEmpty then ["DFD name is required"] else [])
      ++ (if dfd.elements.isEmpty then ["DFD must have at least one element"] else [])
    let (elemErrs, elemWarns) := validateElementsFrom [] 0 dfd.elements
    let elementIds := dfd.elements.map (·.id)
    let (dfErrs, dfWarns) := validateDataflowsFrom elementIds [] 0 dfd.dataflows
    let tbWarns :=
      if dfd.trustBoundaries.isEmpty then
        ["No trust boundaries defined. Consider adding trust boundaries to your DFD"]
      else []
    let errors := headerErrs ++ elemErrs ++ dfErrs
    let warnings := elemWarns ++ dfWarns ++ orphanWarnings dfd ++ tbWarns
    { valid := errors.isEmpty
      errors := errors
      warnings := some warnings
      elementCount := some dfd.elements.length
      dataflowCount := some dfd.dataflows.length
      trustBoundaryCount := some dfd.trustBoundaries.length }

/-- The role-flag normalization `validate` performs on each element in place:
`datastore`/`database` set `isDatastore`, `external_entity`/`actor`/`user` set
`isExternalEntity`, `process` sets `isProcess`. -/
def normalizeElement (e : Element) : Element :=
  let e := if e.type = "datastore" ∨ e.type = "database" then
    { e with isDatastore := true } else e
  let e := if e.type = "external_entity" ∨ e.type = "actor" ∨ e.type = "user" then
    { e with isExternalEntity := true } else e
  if e.type = "process" then { e with isProcess := true } else e

/-- The DFD as it stands after `validate` has run (the canonical
role-annotated form the generator consumes). -/
def validatedDFD (dfd : DFD) : DFD :=
  { dfd with elements := dfd.elements.map normalizeElement }

/-! ### Threat generator (`src/threatGenerator.js`) -/

/-- `threatGenerator.matchesElement`: a pattern with no `targets` matches
unconditionally, otherwise the element type must be listed. -/
def matchesElement (element : Element) (pattern : ThreatPattern) : Bool :=
  match pattern.targets with
  | none => true
  | some targets => targets.contains element.type

/-- `threatGenerator.matchesDataflow`: requires `appliesToDataflow`; a protocol
allow-list, when present, must contain the dataflow's protocol (an absent
protocol is never contained, as in JS `includes(undefined)`). -/
def matchesDataflow (dataflow : Dataflow) (pattern : ThreatPattern) : Bool :=
  if pattern.appliesToDataflow = false then false
  else
    match pattern.protocols with
    | none => true
    | some ps =>
      match dataflow.protocol with
      | none => false
      | some p => ps.contains p

/-- `threatGenerator.calculateSeverity` (element findings): baseline
`pattern.severity || 'Medium'`; `untrusted` forces Critical;
`partially-trusted` raises Low to Medium; anything else keeps the baseline. -/
def calculateSeverity (pattern : ThreatPattern) (element : Element) : Severity :=
  let baseSeverity := pattern.severity.getD .medium
  if element.trustLevel = some "untrusted" then .critical
  else if element.trustLevel = some "partially-trusted" then
    if baseSeverity = .low then .medium else baseSeverity
  else baseSeverity

/-- `threatGenerator.calculateSeverityForDataflow`: `hasSensitiveData` forces
Critical; otherwise `isCrossNetwork` turns Low into Medium and anything else
into High; otherwise the baseline stands. -/
def calculateSeverityForDataflow (pattern : ThreatPattern) (dataflow : Dataflow) : Severity :=
  let severity := pattern.severity.getD .medium
  if dataflow.hasSensitiveData then .critical
  else if dataflow.isCrossNetwork then
    if severity = .low then .medium else .high
  else severity

/-- The threat object built from a matched pattern in `analyzeElement`. -/
def patternThreatForElement (pattern : ThreatPattern) (element : Element) : Threat :=
  { title := pattern.title
    description := pattern.description
    category := pattern.category
    stride := pattern.stride
    severity := calculateSeverity pattern element
    likelihood := "Medium"
    impact := pattern.impact.getD "High"
    mitigations := pattern.mitigations.getD []
    references := pattern.references.getD []
    owaspCategory := pattern.owaspCategory.getD "A01:2021 – Broken Access Control" }

/-- The pattern-derived findings of `analyzeElement` (the `patterns.forEach`
loop): matched patterns, in library order. -/
def elementPatternThreats (element : Element) : List Threat :=
  ((getThreatPatterns element.type).filter (matchesElement element)).map
    (fun p => patternThreatForElement p element)

/-- The fixed supplementary finding pushed when `element.isExternalEntity`. -/
def maliciousExternalActorThreat : Threat :=
  { title := "Malicious External Actor"
    description := "External entity may be compromised or act maliciously"
    category := "Actor Threat"
    stride := ["Spoofing", "Repudiation"]
    severity := .high
    likelihood := "Medium"
    impact := "High"
    mitigations :=
      [ "Implement authentication mechanisms"
      , "Use digital signatures for verification"
      , "Monitor for anomalous behavior"
      , "Implement audit logging" ]
    references := []
    owaspCategory := "A07:2021 – Identification and Authentication Failures" }

/-- The fixed supplementary finding pushed when `element.isDatastore`. -/
def unauthorizedDataAccessThreat : Threat :=
  { title := "Unauthorized Data Access"
    description := "Sensitive data in datastore may be accessed without authorization"
    category := "Information Disclosure"
    stride := ["Information Disclosure", "Tampering"]
    severity := .critical
    likelihood := "High"
    impact := "Critical"
    mitigations :=
      [ "Implement encryption at rest"
      , "Use access control lists"
      , "Implement database auditing"
      , "Use data masking for sensitive fields"
      , "Regular backup and recovery testing" ]
    references := []
    owaspCategory := "A01:2021 – Broken Access Control" }

/-- The fixed supplementary finding pushed when `element.isProcess`. -/
def privilegeEscalationThreat : Threat :=
  { title := "Privilege Escalation"
    description := "Process may be exploited to escalate privileges"
    category := "Authorization Bypass"
    stride := ["Elevation of Privilege"]
    severity := .high
    likelihood := "Medium"
    impact := "Critical"
    mitigations :=
      [ "Run with least privilege principle"
      , "Input validation and sanitization"
      , "Use security frameworks"
      , "Implement RBAC"
      , "Regular security testing" ]
    references := []
    owaspCategory := "A04:2021 – Insecure Design" }

/-- `threatGenerator.analyzeElement`: pattern-derived findings, then the
role-flag supplementary findings.  The `dfd` parameter is unused in the
source as well. -/
def analyzeElement (element : Element) (_dfd : DFD) : List Threat :=
  elementPatternThreats element
  ++ (if element.isExternalEntity then [maliciousExternalActorThreat] else [])
  ++ (if element.isDatastore then [unauthorizedDataAccessThreat] else [])
  ++ (if element.isProcess then [privilegeEscalationThreat] else [])

/-- The threat object built from a matched pattern in `analyzeDataflow`. -/
def patternThreatForDataflow (pattern : ThreatPattern) (dataflow : Dataflow) : Threat :=
  { title := pattern.title
    description := pattern.description
    category := pattern.category
    stride := pattern.stride
    severity := calculateSeverityForDataflow pattern dataflow
    likelihood := "High"
    impact := pattern.impact.getD "High"
    mitigations := pattern.mitigations.getD []
    references := pattern.references.getD []
    owaspCategory := pattern.owaspCategory.getD "A02:2021 – Cryptographic Failures" }

/-- The fixed finding pushed when the dataflow protocol is `http`
(case-insensitively). -/
def mitmThreat : Threat :=
  { title := "Man-in-the-Middle Attack"
    description := "Unencrypted HTTP dataflow is vulnerable to MITM attacks"
    category := "Network Attack"
    stride := ["Tampering", "Information Disclosure"]
    severity := .critical
    likelihood := "High"
    impact := "Critical"
    mitigations :=
      [ "Use HTTPS/TLS encryption"
      , "Implement certificate pinning"
      , "Use HSTS headers"
      , "Implement perfect forward secrecy"
      , "Regular security updates" ]
    references := []
    owaspCategory := "A02:2021 – Cryptographic Failures" }

/-- The fixed finding pushed when the dataflow `hasSensitiveData`. -/
def dataExposureThreat : Threat :=
  { title := "Data Exposure During Transit"
    description := "Sensitive data may be exposed if not properly protected in transit"
    category := "Data Protection"
    stride := ["Information Disclosure"]
    severity := .critical
    likelihood := "High"
    impact := "Critical"
    mitigations :=
      [ "Encrypt data in transit (TLS 1.2+)"
      , "Use strong encryption algorithms"
      , "Implement key management"
      , "Data classification policy"
      , "Regular encryption audits" ]
    references := []
    owaspCategory := "A02:2021 – Cryptographic Failures" }

/-- `threatGenerator.analyzeDataflow`: pattern-derived findings for the
`dataflow` bucket, then the protocol- and sensitivity-driven fixed findings. -/
def analyzeDataflow (dataflow : Dataflow) (_dfd : DFD) : List Threat :=
  ((getThreatPatterns "dataflow").filter (matchesDataflow dataflow)).map
    (fun p => patternThreatForDataflow p dataflow)
  ++ (match dataflow.protocol with
      | some p => if p.isEmpty = false ∧ lowerString p = "http" then [mitmThreat] else []
      | none => [])
  ++ (if dataflow.hasSensitiveData then [dataExposureThreat] else [])

/-- The subject stamp `generateThreatModel` writes onto each element finding. -/
def stampElement (element : Element) (t : Threat) : Threat :=
  { t with
    elementId := some element.id
    elementName := some element.name
    elementType := some element.type }

/-- The subject stamp `generateThreatModel` writes onto each dataflow finding. -/
def stampDataflow (dataflow : Dataflow) (t : Threat) : Threat :=
  { t with
    dataflowId := some dataflow.id
    dataflowName := some dataflow.name
    dataflowType := dataflow.type }

/-- All findings in discovery order: per-element findings for the elements in
input order, then per-dataflow findings for the dataflows in input order —
the order in which `generateThreatModel` pushes onto `threats`. -/
def discoveredThreats (dfd : DFD) : List Threat :=
  dfd.elements.flatMap (fun e => (analyzeElement e dfd).map (stampElement e))
  ++ dfd.dataflows.flatMap (fun df => (analyzeDataflow df dfd).map (stampDataflow df))

/-- `riskSummary[threat.severity.toLowerCase()]++`. -/
def bumpRisk (rs : RiskSummary) : Severity → RiskSummary
  | .critical => { rs with critical := rs.critical + 1 }
  | .high => { rs with high := rs.high + 1 }
  | .medium => { rs with medium := rs.medium + 1 }
  | .low => { rs with low := rs.low + 1 }

/-- The sort order of the final `threats.sort` comparator:
`severityOrder[a.severity] - severityOrder[b.severity] <= 0`. -/
def severityLE (a b : Threat) : Prop :=
  severityOrder a.severity ≤ severityOrder b.severity

instance : DecidableRel severityLE := fun _ _ => Nat.decLe _ _

instance : IsTotal Threat severityLE := ⟨fun _ _ => Nat.le_total _ _⟩

instance : IsTrans Threat severityLE := ⟨fun _ _ _ => Nat.le_trans⟩

/-- `threatGenerator.generateThreatModel` (with the default `options = {}`,
see the module header): analyze every element then every dataflow, tally the
risk summary as findings are pushed, and sort the findings by severity rank
with a stable sort. -/
def generateThreatModel (dfd : DFD) : ThreatModel :=
  let threats := discoveredThreats dfd
  let riskSummary := threats.foldl (fun rs t => bumpRisk rs t.severity) (RiskSummary.mk 0 0 0 0)
  let sorted := threats.insertionSort severityLE
  { dfdId := dfd.id
    dfdName := dfd.name
    threats := sorted
    totalThreats := sorted.length
    riskSummary := riskSummary
    owasp_mapped := true }

/-! ### Report synthesizer: STRIDE breakdown (`breakdownBySTRIDE`) -/

/-- The six fixed STRIDE categories, in the key order of the `breakdown`
object literal. -/
def strideCategories : List String :=
  [ "Spoofing", "Tampering", "Repudiation", "Information Disclosure"
  , "Denial of Service", "Elevation of Privilege" ]

/-- The `breakdown` object of `breakdownBySTRIDE`: six fixed buckets. -/
structure StrideBuckets where
  spoofing : List Threat
  tampering : List Threat
  repudiation : List Threat
  infoDisclosure : List Threat
  denialOfService : List Threat
  elevationOfPrivilege : List Threat
deriving DecidableEq, Repr

/-- `breakdown[category].push(threat)` guarded by `if (breakdown[category])`:
an unrecognized category leaves the buckets unchanged. -/
def addToBucket (b : StrideBuckets) (category : String) (t : Threat) : StrideBuckets :=
  if category = "Spoofing" then { b with spoofing := b.spoofing ++ [t] }
  else if category = "Tampering" then { b with tampering := b.tampering ++ [t] }
  else if category = "Repudiation" then { b with repudiation := b.repudiation ++ [t] }
  else if category = "Information Disclosure" then { b with infoDisclosure := b.infoDisclosure ++ [t] }
  else if category = "Denial of Service" then { b with denialOfService := b.denialOfService ++ [t] }
  else if category = "Elevation of Privilege" then { b with elevationOfPrivilege := b.elevationOfPrivilege ++ [t] }
  else b

/-- `breakdown[category]` as a read: the bucket selected by a recognized
category, `[]` otherwise. -/
def bucketOf (b : StrideBuckets) (category : String) : List Threat :=
  if category = "Spoofing" then b.spoofing
  else if category = "Tampering" then b.tampering
  else if category = "Repudiation" then b.repudiation
  else if category = "Information Disclosure" then b.infoDisclosure
  else if category = "Denial of Service" then b.denialOfService
  else if category = "Elevation of Privilege" then b.elevationOfPrivilege
  else []

/-- `Object.entries(breakdown)`, in the fixed key order. -/
def strideEntries (b : StrideBuckets) : List (String × List Threat) :=
  [ ("Spoofing", b.spoofing)
  , ("Tampering", b.tampering)
  , ("Repudiation", b.repudiation)
  , ("Information Disclosure", b.infoDisclosure)
  , ("Denial of Service", b.denialOfService)
  , ("Elevation of Privilege", b.elevationOfPrivilege) ]

/-- `threatGenerator.breakdownBySTRIDE`: push every threat into the bucket of
each of its STRIDE tags, then drop empty buckets. -/
def breakdownBySTRIDE (threats : List Threat) : List (String × List Threat) :=
  let b := threats.foldl
    (fun acc t => t.stride.foldl (fun acc c => addToBucket acc c t) acc)
    (StrideBuckets.mk [] [] [] [] [] [])
  (strideEntries b).filter (fun e => e.snd.isEmpty = false)

/-! ### Severity buckets (the stable-sort characterization used for C3) -/

/-- The findings of severity `s`, in list order. -/
def bySeverity (s : Severity) (l : List Threat) : List Threat :=
  l.filter (fun t => decide (t.severity = s))

/-! ### Concrete data used by witnesses and the end-to-end scenario -/

/-- The untrusted actor of the §8 scenario. -/
def sampleActor : Element :=
  { id := "u1", name := "User", type := "actor", trustLevel := some "untrusted" }

/-- The process of the §8 scenario. -/
def sampleProcess : Element :=
  { id := "p1", name := "Web App", type := "process" }

/-- The http dataflow with sensitive data of the §8 scenario. -/
def sampleFlow : Dataflow :=
  { id := "f1", name := "User Login", fromE := "u1", toE := "p1"
    protocol := some "http", hasSensitiveData := true }

/-- The §8 scenario DFD: one untrusted actor, one process, one sensitive
unencrypted http dataflow between them. -/
def sampleDFD : DFD :=
  { id := "dfd1", name := "Login Flow", elements := [sampleActor, sampleProcess]
    dataflows := [sampleFlow] }

/-- A cross-network dataflow without sensitive data. -/
def crossOnlyFlow : Dataflow :=
  { id := "x1", name := "Sync", fromE := "a", toE := "b", isCrossNetwork := true }

/-- A dataflow with neither sensitive data nor a cross-network hop. -/
def plainFlow : Dataflow :=
  { id := "x2", name := "Plain", fromE := "a", toE := "b" }

/-- A hypothetical pattern with a Low baseline severity (no library pattern
has one; used to exercise the Low-raising branches). -/
def lowSevPattern : ThreatPattern :=
  { id := "TST01", title := "Test Pattern", description := "test"
    category := "Test", stride := [], severity := some .low }

/-- A partially trusted element. -/
def partialElement : Element :=
  { id := "e2", name := "Edge", type := "actor", trustLevel := some "partially-trusted" }

/-- A trusted element. -/
def trustedElement : Element :=
  { id := "e3", name := "Core", type := "actor", trustLevel := some "trusted" }

/-! ### Claim theorems -/

/-- C1 counterexample: pattern DF01 has a Critical baseline, yet on a
cross-network dataflow without sensitive data the computed severity is High,
not Critical — the claim's "a Critical baseline stays Critical" fails. -/
theorem c1_cross_network_critical_downgraded :
    patDF01.severity = some Severity.critical ∧
    crossOnlyFlow.hasSensitiveData = false ∧
    crossOnlyFlow.isCrossNetwork = true ∧
    calculateSeverityForDataflow patDF01 crossOnlyFlow = Severity.high ∧
    calculateSeverityForDataflow patDF01 crossOnlyFlow ≠ Severity.critical := by
  decide

/-- C1 (amended): severity of a pattern-derived dataflow finding: if the
dataflow has `hasSensitiveData`, Critical; otherwise if `isCrossNetwork`, a
Low baseline becomes Medium and every other baseline (Critical included)
becomes exactly High; otherwise the baseline is unchanged. -/
theorem c1_dataflow_severity_escalation_amended (pattern : ThreatPattern) (df : Dataflow) :
    (df.hasSensitiveData = true → calculateSeverityForDataflow pattern df = .critical) ∧
    (df.hasSensitiveData = false → df.isCrossNetwork = true →
      pattern.severity.getD .medium = .low →
      calculateSeverityForDataflow pattern df = .medium) ∧
    (df.hasSensitiveData = false → df.isCrossNetwork = true →
      pattern.severity.getD .medium ≠ .low →
      calculateSeverityForDataflow pattern df = .high) ∧
    (df.hasSensitiveData = false → df.isCrossNetwork = false →
      calculateSeverityForDataflow pattern df = pattern.severity.getD .medium) := by
  refine ⟨?_, ?_, ?_, ?_⟩ <;> intros <;> simp_all [calculateSeverityForDataflow]

/-- C1 witness: the amended rule at concrete inputs — a Critical baseline on a
cross-network flow becomes High; a Medium baseline on a plain flow stays
Medium. -/
theorem c1_dataflow_severity_escalation_witness :
    calculateSeverityForDataflow patDF01 crossOnlyFlow = Severity.high ∧
    calculateSeverityForDataflow patDF04 plainFlow = Severity.medium :=
  ⟨(c1_dataflow_severity_escalation_amended patDF01 crossOnlyFlow).2.2.1 rfl rfl (by decide),
   (c1_dataflow_severity_escalation_amended patDF04 plainFlow).2.2.2 rfl rfl⟩

/-- C4: severity of a pattern-derived element finding starts from the
pattern's baseline; an `untrusted` element forces Critical (so every
pattern-derived finding of an untrusted element is Critical); a
`partially-trusted` element raises Low to Medium and keeps other baselines;
a trusted or annotation-free element keeps the baseline. -/
theorem c4_element_severity_escalation (pattern : ThreatPattern) (e : Element) :
    (e.trustLevel = some "untrusted" → calculateSeverity pattern e = .critical) ∧
    (e.trustLevel = some "untrusted" →
      ∀ t ∈ elementPatternThreats e, t.severity = .critical) ∧
    (e.trustLevel = some "partially-trusted" → pattern.severity.getD .medium = .low →
      calculateSeverity pattern e = .medium) ∧
    (e.trustLevel = some "partially-trusted" → pattern.severity.getD .medium ≠ .low →
      calculateSeverity pattern e = pattern.severity.getD .medium) ∧
    (e.trustLevel = some "trusted" ∨ e.trustLevel = none →
      calculateSeverity pattern e = pattern.severity.getD .medium) := by
  refine ⟨?_, ?_, ?_, ?_, ?_⟩
  · intro h; simp [calculateSeverity, h]
  · intro h t ht
    simp only [elementPatternThreats, List.mem_map, List.mem_filter] at ht
    obtain ⟨p, _, rfl⟩ := ht
    simp [patternThreatForElement, calculateSeverity, h]
  · intro h hlow; simp [calculateSeverity, h, hlow]
  · intro h hlow; simp [calculateSeverity, h, hlow]
  · rintro (h | h) <;> simp [calculateSeverity, h]

/-- C4 witness: the escalation rule at concrete inputs — an untrusted actor
forces Critical, a Low baseline on a partially trusted element becomes
Medium, a trusted element keeps pattern ACT01's High baseline. -/
theorem c4_element_severity_escalation_witness :
    calculateSeverity patACT01 sampleActor = Severity.critical ∧
    calculateSeverity lowSevPattern partialElement = Severity.medium ∧
    calculateSeverity patACT01 trustedElement = Severity.high :=
  ⟨(c4_element_severity_escalation patACT01 sampleActor).1 rfl,
   (c4_element_severity_escalation lowSevPattern partialElement).2.2.1 rfl (by decide),
   (c4_element_severity_escalation patACT01 trustedElement).2.2.2.2 (Or.inl rfl)⟩

/-- C5 counterexample: on a missing DFD, `validate` returns only `valid` and
`errors`; the `warnings` and count keys of the claimed full shape are absent. -/
theorem c5_missing_dfd_shape_counterexample :
    (validate none).valid = false ∧
    (validate none).errors = ["DFD object is required"] ∧
    (validate none).warnings = none ∧
    (validate none).elementCount = none ∧
    (validate none).dataflowCount = none ∧
    (validate none).trustBoundaryCount = none := by
  decide

/-- C5 (amended): `validate` is total (never throws); on a present DFD it
returns the full six-key shape with the element, dataflow and trust-boundary
counts and with `valid` iff there are no errors; on a missing DFD it returns
only `valid == false` with the single error `"DFD object is required"`. -/
theorem c5_validate_shape_amended (o : Option DFD) :
    (o = none →
      validate o =
        { valid := false, errors := ["DFD object is required"], warnings := none
          elementCount := none, dataflowCount := none, trustBoundaryCount := none }) ∧
    (∀ d : DFD, o = some d →
      (validate o).warnings.isSome = true ∧
      (validate o).elementCount = some d.elements.length ∧
      (validate o).dataflowCount = some d.dataflows.length ∧
      (validate o).trustBoundaryCount = some d.trustBoundaries.length ∧
      ((validate o).valid = true ↔ (validate o).errors = [])) := by
  constructor
  · rintro rfl; rfl
  · rintro d rfl
    refine ⟨rfl, rfl, rfl, rfl, ?_⟩
    simp [validate, List.isEmpty_iff]

/-- C5 witness: the amended shape at concrete inputs — the truncated result
for a missing DFD and the full shape for the scenario DFD. -/
theorem c5_validate_shape_witness :
    validate none =
      { valid := false, errors := ["DFD object is required"], warnings := none
        elementCount := none, dataflowCount := none, trustBoundaryCount := none } ∧
    (validate (some sampleDFD)).warnings.isSome = true ∧
    ((validate (some sampleDFD)).valid = true ↔ (validate (some sampleDFD)).errors = []) :=
  ⟨(c5_validate_shape_amended none).1 rfl,
   ((c5_validate_shape_amended (some sampleDFD)).2 sampleDFD rfl).1,
   ((c5_validate_shape_amended (some sampleDFD)).2 sampleDFD rfl).2.2.2.2⟩

/-- C7: end-to-end scenario — an untrusted actor, a process, and a sensitive
unencrypted http dataflow between them: validation succeeds with the
unencrypted-sensitive-data warning, and the generated model has at least
three findings including a Critical man-in-the-middle finding and a Critical
data-exposure finding referencing the dataflow, with at least two Criticals
in the risk summary. -/
theorem c7_scenario_end_to_end :
    (validate (some sampleDFD)).valid = true ∧
    "Dataflow \x27User Login\x27 carries sensitive data but is not encrypted" ∈
      ((validate (some sampleDFD)).warnings.getD []) ∧
    3 ≤ (generateThreatModel (validatedDFD sampleDFD)).threats.length ∧
    (∃ t ∈ (generateThreatModel (validatedDFD sampleDFD)).threats,
      t.title = "Man-in-the-Middle Attack" ∧ t.severity = .critical ∧
        t.dataflowId = some sampleFlow.id) ∧
    (∃ t ∈ (generateThreatModel (validatedDFD sampleDFD)).threats,
      t.title = "Data Exposure During Transit" ∧ t.severity = .critical ∧
        t.dataflowId = some sampleFlow.id) ∧
    2 ≤ (generateThreatModel (validatedDFD sampleDFD)).riskSummary.critical := by
  decide

/-- C9: the supported subject types reported by the library metadata are
exactly the bucket keys present in the pattern catalog. -/
theorem c9_metadata_supported_types_roundtrip :
    getLibraryMetadata.supportedElementTypes = libraryPatterns.map Prod.fst ∧
    ∀ ty : String, ty ∈ getLibraryMetadata.supportedElementTypes ↔
      ∃ ps, (ty, ps) ∈ libraryPatterns := by
  have h : getLibraryMetadata.supportedElementTypes = libraryPatterns.map Prod.fst := by
    decide
  refine ⟨h, fun ty => ?_⟩
  rw [h, List.mem_map]
  constructor
  · rintro ⟨⟨a, ps⟩, hm, rfl⟩
    exact ⟨ps, hm⟩
  · rintro ⟨ps, hm⟩
    exact ⟨(ty, ps), hm, rfl⟩

/-- Tallying severities over a finding list adds exactly its length to the
summary totals. -/
theorem foldl_bumpRisk_total (l : List Threat) : ∀ rs : RiskSummary,
    (l.foldl (fun rs t => bumpRisk rs t.severity) rs).critical +
      (l.foldl (fun rs t => bumpRisk rs t.severity) rs).high +
      (l.foldl (fun rs t => bumpRisk rs t.severity) rs).medium +
      (l.foldl (fun rs t => bumpRisk rs t.severity) rs).low =
    rs.critical + rs.high + rs.medium + rs.low + l.length := by
  induction l with
  | nil => intro rs; simp
  | cons t ts ih =>
    intro rs
    rw [List.foldl_cons, ih]
    cases h : t.severity <;> simp [bumpRisk] <;> omega

/-- C2: the risk-summary counts sum to `totalThreats`, which is the length of
the findings list. -/
theorem c2_risk_summary_totals (dfd : DFD) :
    (generateThreatModel dfd).riskSummary.critical +
      (generateThreatModel dfd).riskSummary.high +
      (generateThreatModel dfd).riskSummary.medium +
      (generateThreatModel dfd).riskSummary.low =
    (generateThreatModel dfd).totalThreats ∧
    (generateThreatModel dfd).totalThreats = (generateThreatModel dfd).threats.length := by
  refine ⟨?_, rfl⟩
  show ((discoveredThreats dfd).foldl (fun rs t => bumpRisk rs t.severity)
        (RiskSummary.mk 0 0 0 0)).critical +
      ((discoveredThreats dfd).foldl (fun rs t => bumpRisk rs t.severity)
        (RiskSummary.mk 0 0 0 0)).high +
      ((discoveredThreats dfd).foldl (fun rs t => bumpRisk rs t.severity)
        (RiskSummary.mk 0 0 0 0)).medium +
      ((discoveredThreats dfd).foldl (fun rs t => bumpRisk rs t.severity)
        (RiskSummary.mk 0 0 0 0)).low =
    (List.insertionSort severityLE (discoveredThreats dfd)).length
  rw [List.length_insertionSort, foldl_bumpRisk_total]
  simp

/-- C6: every dataflow carrying sensitive data and not encrypted yields at
least one Critical finding referencing that dataflow. -/
theorem c6_sensitive_unencrypted_critical_finding (dfd : DFD) (df : Dataflow)
    (hmem : df ∈ dfd.dataflows) (hs : df.hasSensitiveData = true)
    (_he : df.isEncrypted = false) :
    ∃ t ∈ (generateThreatModel dfd).threats,
      t.dataflowId = some df.id ∧ t.severity = Severity.critical := by
  refine ⟨stampDataflow df dataExposureThreat, ?_, rfl, rfl⟩
  show _ ∈ List.insertionSort severityLE (discoveredThreats dfd)
  rw [List.mem_insertionSort]
  unfold discoveredThreats
  refine List.mem_append_right _ ?_
  rw [List.mem_flatMap]
  refine ⟨df, hmem, List.mem_map_of_mem _ ?_⟩
  simp [analyzeDataflow, hs]

/-- C6 witness: the scenario dataflow carries sensitive data unencrypted, and
its generated model indeed contains a Critical finding referencing it. -/
theorem c6_sensitive_unencrypted_critical_finding_witness :
    ∃ t ∈ (generateThreatModel sampleDFD).threats,
      t.dataflowId = some sampleFlow.id ∧ t.severity = Severity.critical :=
  c6_sensitive_unencrypted_critical_finding sampleDFD sampleFlow (by decide)
    (by decide) (by decide)

/-- Normalization never changes an element's id. -/
theorem normalizeElement_id (e : Element) : (normalizeElement e).id = e.id := by
  simp only [normalizeElement]
  split_ifs <;> rfl

/-- C10: validation's normalization sets `isExternalEntity` for plain `actor`
and `user` elements (not only `external_entity`), and consequently the
generator synthesizes the High "Malicious External Actor" supplementary
finding (Spoofing, Repudiation) for every such element. -/
theorem c10_actor_user_external_entity_flag (e : Element) (dfd : DFD)
    (h : e.type = "actor" ∨ e.type = "user") :
    (normalizeElement e).isExternalEntity = true ∧
    (∃ t ∈ analyzeElement (normalizeElement e) dfd,
      t.title = "Malicious External Actor" ∧ t.severity = Severity.high ∧
        t.stride = ["Spoofing", "Repudiation"]) ∧
    (e ∈ dfd.elements →
      ∃ t ∈ (generateThreatModel (validatedDFD dfd)).threats,
        t.elementId = some e.id ∧ t.title = "Malicious External Actor" ∧
          t.severity = Severity.high) := by
  have hext : (normalizeElement e).isExternalEntity = true := by
    unfold normalizeElement
    rcases h with h | h <;> simp [h]
  refine ⟨hext, ?_, ?_⟩
  · refine ⟨maliciousExternalActorThreat, ?_, rfl, rfl, rfl⟩
    simp [analyzeElement, hext]
  · intro hmem
    refine ⟨stampElement (normalizeElement e) maliciousExternalActorThreat, ?_, ?_, rfl, rfl⟩
    · show _ ∈ List.insertionSort severityLE (discoveredThreats (validatedDFD dfd))
      rw [List.mem_insertionSort]
      unfold discoveredThreats
      refine List.mem_append_left _ ?_
      rw [List.mem_flatMap]
      refine ⟨normalizeElement e, ?_, List.mem_map_of_mem _ ?_⟩
      · exact List.mem_map_of_mem normalizeElement hmem
      · simp [analyzeElement, hext]
    · show some (normalizeElement e).id = some e.id
      rw [normalizeElement_id]

/-- C10 witness: the scenario actor element gets the flag and the
supplementary finding. -/
theorem c10_actor_user_external_entity_flag_witness :
    (normalizeElement sampleActor).isExternalEntity = true ∧
    (∃ t ∈ analyzeElement (normalizeElement sampleActor) sampleDFD,
      t.title = "Malicious External Actor" ∧ t.severity = Severity.high ∧
        t.stride = ["Spoofing", "Repudiation"]) ∧
    (sampleActor ∈ sampleDFD.elements →
      ∃ t ∈ (generateThreatModel (validatedDFD sampleDFD)).threats,
        t.elementId = some sampleActor.id ∧ t.title = "Malicious External Actor" ∧
          t.severity = Severity.high) :=
  c10_actor_user_external_entity_flag sampleActor sampleDFD (Or.inl rfl)

/-- Inserting an element that is related to everything in the list puts it in
front. -/
theorem orderedInsert_of_forall_rel {α : Type} (r : α → α → Prop) [DecidableRel r]
    (a : α) (L : List α) (h : ∀ x ∈ L, r a x) : L.orderedInsert r a = a :: L := by
  cases L with
  | nil => rfl
  | cons b t => simp [List.orderedInsert, h b (List.mem_cons_self b t)]

/-- Inserting an element unrelated to everything in a prefix skips the
prefix. -/
theorem orderedInsert_append_of_forall_not {α : Type} (r : α → α → Prop) [DecidableRel r]
    (a : α) (L1 : List α) : ∀ L2 : List α, (∀ x ∈ L1, ¬ r a x) →
      (L1 ++ L2).orderedInsert r a = L1 ++ L2.orderedInsert r a := by
  induction L1 with
  | nil => intro L2 _; rfl
  | cons b t ih =>
    intro L2 h
    have hb : ¬ r a b := h b (List.mem_cons_self b t)
    have ht := ih L2 (fun x hx => h x (List.mem_cons_of_mem b hx))
    simp [List.orderedInsert, hb, ht]

/-- Members of a severity bucket have that severity. -/
theorem mem_bySeverity (s : Severity) (l : List Threat) :
    ∀ x ∈ bySeverity s l, x.severity = s := by
  intro x hx
  simp only [bySeverity, List.mem_filter, decide_eq_true_eq] at hx
  exact hx.2

/-- Bucket of a cons. -/
theorem bySeverity_cons (s : Severity) (a : Threat) (t : List Threat) :
    bySeverity s (a :: t) =
      if a.severity = s then a :: bySeverity s t else bySeverity s t := by
  simp [bySeverity, List.filter_cons]

/-- The stable sort of the generator is the concatenation of the four
severity buckets in rank order (ties keep list order). -/
theorem insertionSort_severity_buckets (l : List Threat) :
    List.insertionSort severityLE l =
      bySeverity .critical l ++ bySeverity .high l ++
        bySeverity .medium l ++ bySeverity .low l := by
  induction l with
  | nil => rfl
  | cons a t ih =>
    show (List.insertionSort severityLE t).orderedInsert severityLE a = _
    rw [ih, bySeverity_cons, bySeverity_cons, bySeverity_cons, bySeverity_cons]
    simp only [List.append_assoc]
    cases ha : a.severity
    case critical =>
      have hall : ∀ x ∈ bySeverity Severity.critical t ++
          (bySeverity Severity.high t ++
            (bySeverity Severity.medium t ++ bySeverity Severity.low t)),
          severityLE a x := by
        intro x _
        simp [severityLE, severityOrder, ha]
      rw [orderedInsert_of_forall_rel severityLE a _ hall]
      simp
    case high =>
      have hB0 : ∀ x ∈ bySeverity Severity.critical t, ¬ severityLE a x := by
        intro x hx
        have hr := mem_bySeverity _ _ x hx
        simp [severityLE, severityOrder, ha, hr]
      have hrest : ∀ x ∈ bySeverity Severity.high t ++
          (bySeverity Severity.medium t ++ bySeverity Severity.low t),
          severityLE a x := by
        intro x hx
        rcases List.mem_append.1 hx with h | h
        · have hr := mem_bySeverity _ _ x h
          simp [severityLE, severityOrder, ha, hr]
        · rcases List.mem_append.1 h with h | h <;>
          · have hr := mem_bySeverity _ _ x h
            simp [severityLE, severityOrder, ha, hr]
      rw [orderedInsert_append_of_forall_not severityLE a _ _ hB0,
        orderedInsert_of_forall_rel severityLE a _ hrest]
      simp
    case medium =>
      have hB0 : ∀ x ∈ bySeverity Severity.critical t, ¬ severityLE a x := by
        intro x hx
        have hr := mem_bySeverity _ _ x hx
        simp [severityLE, severityOrder, ha, hr]
      have hB1 : ∀ x ∈ bySeverity Severity.high t, ¬ severityLE a x := by
        intro x hx
        have hr := mem_bySeverity _ _ x hx
        simp [severityLE, severityOrder, ha, hr]
      have hrest : ∀ x ∈ bySeverity Severity.medium t ++ bySeverity Severity.low t,
          severityLE a x := by
        intro x hx
        rcases List.mem_append.1 hx with h | h <;>
        · have hr := mem_bySeverity _ _ x h
          simp [severityLE, severityOrder, ha, hr]
      rw [orderedInsert_append_of_forall_not severityLE a _ _ hB0,
        orderedInsert_append_of_forall_not severityLE a _ _ hB1,
        orderedInsert_of_forall_rel severityLE a _ hrest]
      simp
    case low =>
      have hB0 : ∀ x ∈ bySeverity Severity.critical t, ¬ severityLE a x := by
        intro x hx
        have hr := mem_bySeverity _ _ x hx
        simp [severityLE, severityOrder, ha, hr]
      have hB1 : ∀ x ∈ bySeverity Severity.high t, ¬ severityLE a x := by
        intro x hx
        have hr := mem_bySeverity _ _ x hx
        simp [severityLE, severityOrder, ha, hr]
      have hB2 : ∀ x ∈ bySeverity Severity.medium t, ¬ severityLE a x := by
        intro x hx
        have hr := mem_bySeverity _ _ x hx
        simp [severityLE, severityOrder, ha, hr]
      have hrest : ∀ x ∈ bySeverity Severity.low t, severityLE a x := by
        intro x hx
        have hr := mem_bySeverity _ _ x hx
        simp [severityLE, severityOrder, ha, hr]
      rw [orderedInsert_append_of_forall_not severityLE a _ _ hB0,
        orderedInsert_append_of_forall_not severityLE a _ _ hB1,
        orderedInsert_append_of_forall_not severityLE a _ _ hB2,
        orderedInsert_of_forall_rel severityLE a _ hrest]
      simp

/-- C3: the findings of a generated model are sorted by non-decreasing
severity rank, and equal the severity buckets of the discovery-ordered
findings (elements in input order, then dataflows in input order)
concatenated in rank order — i.e. ties keep discovery order. -/
theorem c3_findings_sorted_stable (dfd : DFD) :
    List.Pairwise (fun a b : Threat =>
      severityOrder a.severity ≤ severityOrder b.severity)
      (generateThreatModel dfd).threats ∧
    (generateThreatModel dfd).threats =
      bySeverity .critical (discoveredThreats dfd) ++
        bySeverity .high (discoveredThreats dfd) ++
        bySeverity .medium (discoveredThreats dfd) ++
        bySeverity .low (discoveredThreats dfd) := by
  constructor
  · exact List.sorted_insertionSort severityLE (discoveredThreats dfd)
  · exact insertionSort_severity_buckets (discoveredThreats dfd)

/-- Effect of one `breakdown[category].push(threat)` step on a bucket read:
only the recognized bucket named by the pushed category grows. -/
theorem bucketOf_addToBucket (b : StrideBuckets) (c c' : String) (t : Threat) :
    bucketOf (addToBucket b c' t) c =
      if c = c' ∧ c' ∈ strideCategories then bucketOf b c ++ [t]
      else bucketOf b c := by
  by_cases h1 : c' = "Spoofing"
  · subst h1
    have ha : addToBucket b "Spoofing" t = { b with spoofing := b.spoofing ++ [t] } := rfl
    rw [ha]
    by_cases hc : c = "Spoofing" <;> simp [bucketOf, hc, strideCategories]
  by_cases h2 : c' = "Tampering"
  · subst h2
    have ha : addToBucket b "Tampering" t = { b with tampering := b.tampering ++ [t] } := by
      unfold addToBucket
      rw [if_neg h1, if_pos rfl]
    rw [ha]
    by_cases hc : c = "Tampering" <;> simp [bucketOf, hc, strideCategories]
  by_cases h3 : c' = "Repudiation"
  · subst h3
    have ha : addToBucket b "Repudiation" t = { b with repudiation := b.repudiation ++ [t] } := by
      unfold addToBucket
      rw [if_neg h1, if_neg h2, if_pos rfl]
    rw [ha]
    by_cases hc : c = "Repudiation" <;> simp [bucketOf, hc, strideCategories, h1, h2]
  by_cases h4 : c' = "Information Disclosure"
  · subst h4
    have ha : addToBucket b "Information Disclosure" t =
        { b with infoDisclosure := b.infoDisclosure ++ [t] } := by
      unfold addToBucket
      rw [if_neg h1, if_neg h2, if_neg h3, if_pos rfl]
    rw [ha]
    by_cases hc : c = "Information Disclosure" <;>
      simp [bucketOf, hc, strideCategories, h1, h2, h3]
  by_cases h5 : c' = "Denial of Service"
  · subst h5
    have ha : addToBucket b "Denial of Service" t =
        { b with denialOfService := b.denialOfService ++ [t] } := by
      unfold addToBucket
      rw [if_neg h1, if_neg h2, if_neg h3, if_neg h4, if_pos rfl]
    rw [ha]
    by_cases hc : c = "Denial of Service" <;>
      simp [bucketOf, hc, strideCategories, h1, h2, h3, h4]
  by_cases h6 : c' = "Elevation of Privilege"
  · subst h6
    have ha : addToBucket b "Elevation of Privilege" t =
        { b with elevationOfPrivilege := b.elevationOfPrivilege ++ [t] } := by
      unfold addToBucket
      rw [if_neg h1, if_neg h2, if_neg h3, if_neg h4, if_neg h5, if_pos rfl]
    rw [ha]
    by_cases hc : c = "Elevation of Privilege" <;>
      simp [bucketOf, hc, strideCategories, h1, h2, h3, h4, h5]
  have ha : addToBucket b c' t = b := by
    unfold addToBucket
    rw [if_neg h1, if_neg h2, if_neg h3, if_neg h4, if_neg h5, if_neg h6]
  have hm : c' ∉ strideCategories := by
    simp [strideCategories, h1, h2, h3, h4, h5, h6]
  rw [ha, if_neg (fun h => hm h.2)]

/-- Bucket membership survives pushing the rest of a finding's tags. -/
theorem mem_bucketOf_strideFoldl (t : Threat) (cs : List String) :
    ∀ (b : StrideBuckets) (x : Threat) (c : String), x ∈ bucketOf b c →
      x ∈ bucketOf (cs.foldl (fun a c' => addToBucket a c' t) b) c := by
  induction cs with
  | nil => intro b x c h; exact h
  | cons c' cs ih =>
    intro b x c h
    refine ih _ x c ?_
    show x ∈ bucketOf (addToBucket b c' t) c
    rw [bucketOf_addToBucket]
    split_ifs with hif
    · exact List.mem_append_left _ h
    · exact h

/-- Pushing a finding's tags puts the finding into the bucket of each of its
recognized tags. -/
theorem mem_bucketOf_strideFoldl_self (t : Threat) (cs : List String) (c : String)
    (hc : c ∈ cs) (hk : c ∈ strideCategories) :
    ∀ b : StrideBuckets, t ∈ bucketOf (cs.foldl (fun a c' => addToBucket a c' t) b) c := by
  induction cs with
  | nil => cases hc
  | cons c' cs ih =>
    intro b
    rcases List.mem_cons.1 hc with rfl | hmem
    · refine mem_bucketOf_strideFoldl t cs _ t c ?_
      show t ∈ bucketOf (addToBucket b c t) c
      rw [bucketOf_addToBucket, if_pos ⟨rfl, hk⟩]
      exact List.mem_append_right _ (List.mem_singleton.2 rfl)
    · exact ih hmem _

/-- Bucket membership survives processing further findings. -/
theorem mem_bucketOf_threatFoldl (l : List Threat) :
    ∀ (b : StrideBuckets) (x : Threat) (c : String), x ∈ bucketOf b c →
      x ∈ bucketOf
        (l.foldl (fun acc t => t.stride.foldl (fun a c' => addToBucket a c' t) acc) b) c := by
  induction l with
  | nil => intro b x c h; exact h
  | cons u us ih =>
    intro b x c h
    exact ih _ x c (mem_bucketOf_strideFoldl u u.stride b x c h)

/-- Every finding of the processed list lands in the bucket of each of its
recognized STRIDE tags. -/
theorem mem_bucketOf_threatFoldl_self (l : List Threat) (t : Threat) (ht : t ∈ l)
    (c : String) (hc : c ∈ t.stride) (hk : c ∈ strideCategories) :
    ∀ b : StrideBuckets, t ∈ bucketOf
      (l.foldl (fun acc t => t.stride.foldl (fun a c' => addToBucket a c' t) acc) b) c := by
  induction l with
  | nil => cases ht
  | cons u us ih =>
    intro b
    rcases List.mem_cons.1 ht with rfl | hmem
    · exact mem_bucketOf_threatFoldl us _ t c
        (mem_bucketOf_strideFoldl_self t t.stride c hc hk b)
    · exact ih hmem _

/-- A nonempty recognized bucket appears among the surviving entries. -/
theorem strideEntry_complete (b : StrideBuckets) (c : String) (t : Threat)
    (hk : c ∈ strideCategories) (hmem : t ∈ bucketOf b c) :
    ∃ e ∈ (strideEntries b).filter (fun e => e.snd.isEmpty = false),
      e.fst = c ∧ t ∈ e.snd := by
  refine ⟨(c, bucketOf b c), List.mem_filter.mpr ⟨?_, ?_⟩, rfl, hmem⟩
  · fin_cases hk <;> simp [strideEntries, bucketOf]
  · have hne : bucketOf b c ≠ [] := List.ne_nil_of_mem hmem
    simpa using hne

/-- C8: the STRIDE breakdown never contains an empty bucket, every key it
contains is one of the six fixed STRIDE categories, and every finding appears
in the bucket of each of its recognized STRIDE tags. -/
theorem c8_stride_breakdown_properties (threats : List Threat) :
    (∀ e ∈ breakdownBySTRIDE threats, e.snd ≠ [] ∧ e.fst ∈ strideCategories) ∧
    (∀ t ∈ threats, ∀ c ∈ t.stride, c ∈ strideCategories →
      ∃ e ∈ breakdownBySTRIDE threats, e.fst = c ∧ t ∈ e.snd) := by
  constructor
  · intro e he
    unfold breakdownBySTRIDE at he
    have hf := List.mem_filter.1 he
    constructor
    · simpa using hf.2
    · have hment := hf.1
      simp only [strideEntries, List.mem_cons, List.not_mem_nil, or_false] at hment
      rcases hment with rfl | rfl | rfl | rfl | rfl | rfl <;> simp [strideCategories]
  · intro t ht c hc hk
    unfold breakdownBySTRIDE
    exact strideEntry_complete _ c t hk
      (mem_bucketOf_threatFoldl_self threats t ht c hc hk _)

/-- C8 witness: the breakdown of a single two-tag finding has that finding in
its Repudiation bucket, and its Spoofing entry is well-formed. -/
theorem c8_stride_breakdown_properties_witness :
    (("Spoofing", [maliciousExternalActorThreat]).snd ≠ [] ∧
      ("Spoofing", [maliciousExternalActorThreat]).fst ∈ strideCategories) ∧
    ∃ e ∈ breakdownBySTRIDE [maliciousExternalActorThreat],
      e.fst = "Repudiation" ∧ maliciousExternalActorThreat ∈ e.snd :=
  ⟨(c8_stride_breakdown_properties [maliciousExternalActorThreat]).1
      ("Spoofing", [maliciousExternalActorThreat]) (by decide),
   (c8_stride_breakdown_properties [maliciousExternalActorThreat]).2
      maliciousExternalActorThreat (by decide) "Repudiation" (by decide) (by decide)⟩
